import Mathlib

/-!
Verification of the satpy CF netCDF file handler (`satpy/readers/satpy_cf_nc.py`).

This file gives a shallow embedding of the `SatpyCFFileHandler` class and
proves properties of its dataset-discovery and retrieval logic.

Modelling choices:
* Python attribute values (the contents of netCDF attribute dictionaries) are
  modelled by the inductive type `AttrValue`: strings, numeric scalars
  (idealised as rationals, since no floating-point arithmetic is performed by
  the code — only identity coercions and structural rearrangement), Python
  lists and Python tuples.
* Python dictionaries are modelled as insertion-ordered association lists
  (`Dict`) with first-match lookup and replace-in-place-or-append insertion,
  matching CPython dict semantics for well-formed (duplicate-free) dicts.
* Python exceptions are modelled with `Except PyErr`: `len()` on an unsized
  value raises `TypeError`, `float()` on a non-numeric value raises
  `ValueError`/`TypeError`, missing dict keys raise `KeyError`, missing
  methods raise `AttributeError`.
* A netCDF file (the result of `xr.open_dataset`) is modelled by `NcFile`:
  named data variables, named coordinate variables, and global attributes.
  Each variable carries its attribute dict and an opaque payload identifier
  standing for the lazy array data.
* Generators are collapsed to `Except`-valued lists: a pass that raises while
  producing its n-th element is modelled as the error value.
-/

/-- A scalar element of a netCDF attribute array: a string or a number
(numbers idealised as rationals; the code performs no float arithmetic). -/
inductive Scalar where
  | str : String → Scalar
  | num : ℚ → Scalar
deriving Repr, DecidableEq

/-- A Python attribute value as it occurs in this module: netCDF attribute
values are flat — a string, a numeric scalar, or a 1-D sequence of scalars
(read as a list, or already normalised to a tuple). -/
inductive AttrValue where
  | str : String → AttrValue
  | num : ℚ → AttrValue
  | list : List Scalar → AttrValue
  | tuple : List Scalar → AttrValue
deriving Repr, DecidableEq

/-- A Python dictionary with string keys, as an insertion-ordered
association list (well-formed dicts have no duplicate keys). -/
abbrev Dict := List (String × AttrValue)

/-- Python `d[k]` / `d.get(k)`: first binding of `k`, if any. -/
def dlookup (d : Dict) (k : String) : Option AttrValue :=
  match d with
  | [] => none
  | (k0, v0) :: rest => if k = k0 then some v0 else dlookup rest k

/-- Python `d[k] = v`: replace the binding in place if the key exists,
otherwise append it. -/
def dinsert (d : Dict) (k : String) (v : AttrValue) : Dict :=
  match d with
  | [] => [(k, v)]
  | (k0, v0) :: rest =>
      if k = k0 then (k0, v) :: rest else (k0, v0) :: dinsert rest k v

/-- Python `d.update(g)`: write each binding of `g` into `d` in order
(later writes overwrite same-named keys of `d`). -/
def dupdate (d g : Dict) : Dict :=
  g.foldl (fun acc kv => dinsert acc kv.1 kv.2) d

/-- The Python exception classes the embedded code can raise. -/
inductive PyErr where
  | typeError
  | valueError
  | keyError
  | attributeError
deriving Repr, DecidableEq

instance exceptDecEq {ε α : Type} [DecidableEq ε] [DecidableEq α] :
    DecidableEq (Except ε α) := fun x y =>
  match x, y with
  | .ok a, .ok b =>
      if h : a = b then .isTrue (by rw [h]) else .isFalse (by simp [h])
  | .error e, .error f =>
      if h : e = f then .isTrue (by rw [h]) else .isFalse (by simp [h])
  | .ok _, .error _ => .isFalse (by simp)
  | .error _, .ok _ => .isFalse (by simp)

/-- Python `len(v)`: defined on strings, lists and tuples; `none` models the
`TypeError` raised on unsized values (numbers). -/
def pyLen : AttrValue → Option Nat
  | .str s => some s.length
  | .num _ => none
  | .list xs => some xs.length
  | .tuple xs => some xs.length

/-- Split a character list at every occurrence of `c`, keeping empty
segments (the semantics of Python `str.split` with an explicit single-char
separator: `"a  b".split(" ") == ["a", "", "b"]`, `"".split(" ") == [""]`). -/
def splitOnChar (c : Char) : List Char → List (List Char)
  | [] => [[]]
  | x :: rest =>
      match splitOnChar c rest with
      | [] => if x = c then [[], []] else [[x]]
      | h :: t => if x = c then [] :: h :: t else (x :: h) :: t

/-- Python `s.split(' ')`. -/
def pySplitSpace (s : String) : List String :=
  (splitOnChar ' ' s.data).map String.mk

/-- `SatpyCFFileHandler.fix_modifier_attr` (satpy_cf_nc.py:232-243).
First statement: `if 'modifiers' in ds_info and len(ds_info['modifiers']) == 0:
ds_info['modifiers'] = ()` — `len` raises `TypeError` on an unsized value,
and nothing catches it. Then, inside `try ... except AttributeError/KeyError`:
`ds_info['modifiers'] = tuple(ds_info['modifiers'].split(' '))` — a missing
key (KeyError) or a non-string value (AttributeError on `.split`) is
swallowed, a string value is replaced by the tuple of its space-split
tokens. -/
def fix_modifier_attr (ds_info : Dict) : Except PyErr Dict :=
  match dlookup ds_info "modifiers" with
  | none => .ok ds_info
  | some v =>
      match pyLen v with
      | none => .error .typeError
      | some n =>
          let d1 := if n = 0 then dinsert ds_info "modifiers" (.tuple []) else ds_info
          match dlookup d1 "modifiers" with
          | some (.str s) =>
              .ok (dinsert d1 "modifiers" (.tuple ((pySplitSpace s).map Scalar.str)))
          | _ => .ok d1

/-- Digits of a decimal literal folded into a natural number. -/
def natOfDigits (cs : List Char) : Nat :=
  cs.foldl (fun a c => a * 10 + (c.toNat - 48)) 0

/-- Python `float(s)` on a string, idealised to plain decimal literals:
optional sign, digits, optional fractional part ("0.6", "-3.", ".25").
Other accepted Python spellings (exponents, inf/nan, whitespace) are not
produced by this module's data and are mapped to `none` (ValueError). -/
def parseDecimal (s : String) : Option ℚ :=
  let rest := match s.data with
    | '-' :: r => r
    | '+' :: r => r
    | r => r
  let intPart := rest.takeWhile Char.isDigit
  let tail := rest.dropWhile Char.isDigit
  let mkVal : List Char → ℚ := fun frac =>
    let mag : ℚ := (natOfDigits intPart : ℚ) + (natOfDigits frac : ℚ) / ((10 : ℚ) ^ frac.length)
    if s.data.head? = some '-' then -mag else mag
  match tail with
  | [] => if intPart.isEmpty then none else some (mkVal [])
  | '.' :: frac =>
      if frac.all Char.isDigit && !(intPart.isEmpty && frac.isEmpty) then some (mkVal frac)
      else none
  | _ => none

/-- Python `float(x)` on a scalar: identity on numbers, decimal parse on
strings (`ValueError` on failure). -/
def pyFloat : Scalar → Except PyErr ℚ
  | .num q => .ok q
  | .str s =>
      match parseDecimal s with
      | some q => .ok q
      | none => .error .valueError

/-- `[float(w) for w in ws]`: first failure aborts the comprehension. -/
def floatList : List Scalar → Except PyErr (List ℚ)
  | [] => .ok []
  | x :: xs =>
      match pyFloat x with
      | .error e => .error e
      | .ok q =>
          match floatList xs with
          | .error e => .error e
          | .ok qs => .ok (q :: qs)

/-- `[float(w) for w in v[0:3]]`: slicing a list/tuple takes at most the
first three elements; slicing a string takes its first three characters
(each then a 1-character string fed to `float`); a number is not
subscriptable (`TypeError`). -/
def sliceFloat3 : AttrValue → Except PyErr (List ℚ)
  | .list xs => floatList (xs.take 3)
  | .tuple xs => floatList (xs.take 3)
  | .str s => floatList ((s.data.take 3).map (fun c => Scalar.str (String.mk [c])))
  | .num _ => .error .typeError

/-- The wavelength step of `_dynamic_datasets` (satpy_cf_nc.py:253-256):
`try: ds_info['wavelength'] = tuple([float(wlength) for wlength in
ds_info['wavelength'][0:3]]) except KeyError: pass` — only a missing key is
recovered. -/
def coerceWavelength (d : Dict) : Except PyErr Dict :=
  match dlookup d "wavelength" with
  | none => .ok d
  | some v =>
      match sliceFloat3 v with
      | .error e => .error e
      | .ok qs => .ok (dinsert d "wavelength" (.tuple (qs.map Scalar.num)))

/-- One named variable of an opened netCDF file: its attribute dict plus an
opaque payload identifier standing for the lazy chunked array. -/
structure NcVar where
  attrs : Dict
  payload : Nat
deriving Repr, DecidableEq

/-- The in-memory representation returned by `xr.open_dataset`: named data
variables (`nc.data_vars`), named coordinate variables (`nc.coords`), and
global attributes (`nc.attrs`), each in file order. -/
structure NcFile where
  data_vars : List (String × NcVar)
  coords : List (String × NcVar)
  attrs : Dict
deriving Repr, DecidableEq

/-- First-match lookup in a named-variable list. -/
def alookup {α : Type} : List (String × α) → String → Option α
  | [], _ => none
  | (k0, v0) :: rest, k => if k = k0 then some v0 else alookup rest k

/-- `SatpyCFFileHandler.start_time` (satpy_cf_nc.py:198-201):
`self.filename_info['start_time']`; a missing key raises `KeyError`.
Timestamps are opaque naturals. -/
def start_time (filename_info : List (String × Nat)) : Except PyErr Nat :=
  match alookup filename_info "start_time" with
  | some t => .ok t
  | none => .error .keyError

/-- `SatpyCFFileHandler.end_time` (satpy_cf_nc.py:203-206):
`self.filename_info.get('end_time', self.start_time)` — the default
argument `self.start_time` is evaluated before the `.get` call, so a
missing `start_time` raises even when `end_time` is present. -/
def end_time (filename_info : List (String × Nat)) : Except PyErr Nat :=
  match start_time filename_info with
  | .error e => .error e
  | .ok st => .ok ((alookup filename_info "end_time").getD st)

/-- Python `s.replace('/', '-')` (single-character from/to: a per-character
map). -/
def pyReplaceSlashDash (s : String) : String :=
  String.mk (s.data.map (fun c => if c = '/' then '-' else c))

/-- Python `s.lower()` (ASCII case mapping; the strings this module meets
are ASCII instrument names). -/
def pyLower (s : String) : String :=
  String.mk (s.data.map Char.toLower)

/-- `SatpyCFFileHandler.sensor` (satpy_cf_nc.py:208-212): opens the file and
returns `nc.attrs['instrument'].replace('/', '-').lower()`. A missing
`instrument` attribute raises `KeyError`; a non-string value has no
`.replace` method (`AttributeError`). -/
def sensor (f : NcFile) : Except PyErr String :=
  match dlookup f.attrs "instrument" with
  | none => .error .keyError
  | some (.str s) => .ok (pyLower (pyReplaceSlashDash s))
  | some _ => .error .attributeError

/-- `SatpyCFFileHandler.sensor_names` (satpy_cf_nc.py:214-217):
`{self.sensor}`. -/
def sensor_names (f : NcFile) : Except PyErr (Finset String) :=
  match sensor f with
  | .error e => .error e
  | .ok s => .ok {s}

/-- Per-variable body of `_dynamic_datasets` (satpy_cf_nc.py:249-258):
copy the variable's attrs, set `file_type` and `name`, coerce `wavelength`,
fix `modifiers`, and yield `(True, ds_info)`. -/
def processDataVar (file_type : String) (nv : String × NcVar) :
    Except PyErr (Bool × Dict) :=
  let d := dinsert (dinsert nv.2.attrs "file_type" (.str file_type)) "name" (.str nv.1)
  match coerceWavelength d with
  | .error e => .error e
  | .ok d2 =>
      match fix_modifier_attr d2 with
      | .error e => .error e
      | .ok d3 => .ok (true, d3)

/-- Per-variable body of `_coordinate_datasets` (satpy_cf_nc.py:262-268):
as for data variables but with no wavelength coercion. -/
def processCoordVar (file_type : String) (nv : String × NcVar) :
    Except PyErr (Bool × Dict) :=
  let d := dinsert (dinsert nv.2.attrs "file_type" (.str file_type)) "name" (.str nv.1)
  match fix_modifier_attr d with
  | .error e => .error e
  | .ok d2 => .ok (true, d2)

/-- Run a per-element generator body over a list; the first raised
exception aborts the enumeration. -/
def collectE {α β : Type} (f : α → Except PyErr β) : List α → Except PyErr (List β)
  | [] => .ok []
  | a :: as =>
      match f a with
      | .error e => .error e
      | .ok b =>
          match collectE f as with
          | .error e => .error e
          | .ok bs => .ok (b :: bs)

/-- `SatpyCFFileHandler._dynamic_datasets` (satpy_cf_nc.py:245-258),
collapsed from a generator to the list of yielded records. -/
def dynamic_datasets (file_type : String) (f : NcFile) :
    Except PyErr (List (Bool × Dict)) :=
  collectE (processDataVar file_type) f.data_vars

/-- `SatpyCFFileHandler._coordinate_datasets` (satpy_cf_nc.py:260-268). -/
def coordinate_datasets (file_type : String) (f : NcFile) :
    Except PyErr (List (Bool × Dict)) :=
  collectE (processCoordVar file_type) f.coords

/-- `SatpyCFFileHandler._existing_datasets` (satpy_cf_nc.py:227-230):
`for is_avail, ds_info in (configured_datasets or []): yield is_avail,
ds_info`. `none` models the default argument `None`. -/
def existing_datasets (configured_datasets : Option (List (Bool × Dict))) :
    List (Bool × Dict) :=
  match configured_datasets with
  | none => []
  | some l => l

/-- `SatpyCFFileHandler.available_datasets` (satpy_cf_nc.py:219-225):
`itertools.chain(existing, dynamic, coordinates)`. -/
def available_datasets (file_type : String) (f : NcFile)
    (configured_datasets : Option (List (Bool × Dict))) :
    Except PyErr (List (Bool × Dict)) :=
  match dynamic_datasets file_type f with
  | .error e => .error e
  | .ok dyn =>
      match coordinate_datasets file_type f with
      | .error e => .error e
      | .ok cs => .ok (existing_datasets configured_datasets ++ dyn ++ cs)

/-- `nc[key]`: xarray `Dataset.__getitem__` finds the named variable among
the data variables and the coordinate variables; a missing name raises
`KeyError`. -/
def ncGetVar (f : NcFile) (key : String) : Option NcVar :=
  match alookup f.data_vars key with
  | some v => some v
  | none => alookup f.coords key

/-- `file_key = ds_info.get('file_key', ds_id['name'])`
(satpy_cf_nc.py:275): `ds_id['name']` is evaluated as the eager default, so
when `ds_info` lacks `file_key` a missing `name` raises `KeyError`. -/
def resolveFileKey (ds_id ds_info : Dict) : Except PyErr AttrValue :=
  match dlookup ds_id "name" with
  | none => .error .keyError
  | some nm =>
      match dlookup ds_info "file_key" with
      | some v => .ok v
      | none => .ok nm

/-- `SatpyCFFileHandler.get_dataset` (satpy_cf_nc.py:270-278): open the
file (the `chunks={'y': CHUNK_SIZE, 'x': CHUNK_SIZE}` argument configures
lazy decoding and does not affect the metadata modelled here), resolve the
key, fetch `nc[file_key]`, then `data.attrs.update(nc.attrs)` — the global
attributes are written in after the variable's own, so on a collision the
global value wins. A non-string key never names a variable (`KeyError`). -/
def get_dataset (f : NcFile) (ds_id ds_info : Dict) : Except PyErr NcVar :=
  match resolveFileKey ds_id ds_info with
  | .error e => .error e
  | .ok (.str key) =>
      match ncGetVar f key with
      | some v => .ok { v with attrs := dupdate v.attrs f.attrs }
      | none => .error .keyError
  | .ok _ => .error .keyError

/-- A concrete file in the shape of the module's docstring example: two
data variables (`M05` with wavelength and string modifiers, `M15` with
empty-list modifiers) and one coordinate variable, with global
attributes. -/
def exFile : NcFile where
  data_vars :=
    [("M05",
      { attrs := [("wavelength", .list [.num 0.6, .num 0.65, .num 0.7, .str "extra"]),
                  ("modifiers", .str "sunz_corrected rayleigh_corrected")],
        payload := 0 }),
     ("M15", { attrs := [("modifiers", .list [])], payload := 1 })]
  coords := [("longitude", { attrs := [], payload := 2 })]
  attrs := [("instrument", .str "VIIRS/Something"), ("platform_name", .str "Suomi-NPP")]

/-- The records the dynamic data-variable pass yields on `exFile`. -/
def exDynOut : List (Bool × Dict) :=
  [(true, [("wavelength", .tuple [.num 0.6, .num 0.65, .num 0.7]),
           ("modifiers", .tuple [.str "sunz_corrected", .str "rayleigh_corrected"]),
           ("file_type", .str "cf"), ("name", .str "M05")]),
   (true, [("modifiers", .tuple []), ("file_type", .str "cf"), ("name", .str "M15")])]

/-- The records the dynamic coordinate-variable pass yields on `exFile`. -/
def exCoordOut : List (Bool × Dict) :=
  [(true, [("file_type", .str "cf"), ("name", .str "longitude")])]

/-- A file whose single data variable carries a non-empty list-valued
`modifiers` attribute. -/
def exListModFile : NcFile where
  data_vars := [("chan", { attrs := [("modifiers", .list [.str "sunz_corrected"])], payload := 0 })]
  coords := []
  attrs := []

theorem dlookup_dinsert (d : Dict) (k : String) (v : AttrValue) (k2 : String) :
    dlookup (dinsert d k v) k2 = if k2 = k then some v else dlookup d k2 := by
  induction d with
  | nil => simp [dinsert, dlookup]
  | cons hd tl ih =>
      obtain ⟨k0, v0⟩ := hd
      by_cases h : k = k0
      · subst h
        simp only [dinsert, if_pos rfl, dlookup]
        by_cases h2 : k2 = k
        · simp [h2]
        · simp [h2]
      · simp only [dinsert, if_neg h, dlookup, ih]
        by_cases h2 : k2 = k0
        · have hk : ¬k2 = k := fun hc => h (hc.symm.trans h2)
          have hk0 : ¬k0 = k := fun hc => h hc.symm
          simp [h2, hk, hk0]
        · simp [h2]

theorem dlookup_eq_none_of_not_mem (g : Dict) (k : String)
    (h : k ∉ g.map Prod.fst) : dlookup g k = none := by
  induction g with
  | nil => rfl
  | cons hd tl ih =>
      obtain ⟨k0, v0⟩ := hd
      simp only [List.map, List.mem_cons] at h
      push_neg at h
      simp only [dlookup, if_neg h.1]
      exact ih h.2

/-- Lookup after a Python `dict.update`: a key bound in `g` gets `g`'s
value (globals overwrite), any other key keeps `d`'s binding. -/
theorem dlookup_dupdate (g : Dict) (hg : (g.map Prod.fst).Nodup) (d : Dict)
    (k : String) :
    dlookup (dupdate d g) k =
      match dlookup g k with
      | some v => some v
      | none => dlookup d k := by
  induction g generalizing d with
  | nil => simp [dupdate, dlookup]
  | cons hd tl ih =>
      obtain ⟨k0, v0⟩ := hd
      simp only [List.map, List.nodup_cons] at hg
      have hstep : dupdate d ((k0, v0) :: tl) = dupdate (dinsert d k0 v0) tl := rfl
      rw [hstep, ih hg.2 (dinsert d k0 v0)]
      by_cases h : k = k0
      · subst h
        have htl : dlookup tl k = none := dlookup_eq_none_of_not_mem tl k hg.1
        simp [htl, dlookup, dlookup_dinsert]
      · simp only [dlookup, if_neg h]
        cases dlookup tl k with
        | some v => rfl
        | none => simp [dlookup_dinsert, h]

theorem fix_modifier_absent (d : Dict) (h : dlookup d "modifiers" = none) :
    fix_modifier_attr d = .ok d := by
  simp [fix_modifier_attr, h]

theorem fix_modifier_num (d : Dict) (q : ℚ)
    (hv : dlookup d "modifiers" = some (.num q)) :
    fix_modifier_attr d = .error .typeError := by
  simp [fix_modifier_attr, hv, pyLen]

theorem fix_modifier_len0 (d : Dict) (v : AttrValue)
    (hv : dlookup d "modifiers" = some v) (hl : pyLen v = some 0) :
    fix_modifier_attr d = .ok (dinsert d "modifiers" (.tuple [])) := by
  have hins : dlookup (dinsert d "modifiers" (AttrValue.tuple [])) "modifiers"
      = some (.tuple []) := by
    rw [dlookup_dinsert]
    simp
  simp [fix_modifier_attr, hv, hl, hins]

theorem fix_modifier_str (d : Dict) (s : String)
    (hv : dlookup d "modifiers" = some (.str s)) (hs : s.length ≠ 0) :
    fix_modifier_attr d
      = .ok (dinsert d "modifiers" (.tuple ((pySplitSpace s).map Scalar.str))) := by
  simp [fix_modifier_attr, hv, pyLen, hs]

theorem fix_modifier_nonstr (d : Dict) (v : AttrValue) (n : Nat)
    (hv : dlookup d "modifiers" = some v) (hl : pyLen v = some (n + 1))
    (hns : ∀ s, v ≠ AttrValue.str s) :
    fix_modifier_attr d = .ok d := by
  cases v with
  | str s => exact absurd rfl (hns s)
  | num q => simp [pyLen] at hl
  | list xs =>
      have hne : xs.length ≠ 0 := by
        simp only [pyLen, Option.some.injEq] at hl
        omega
      simp [fix_modifier_attr, hv, pyLen, hne, hl]
  | tuple xs =>
      have hne : xs.length ≠ 0 := by
        simp only [pyLen, Option.some.injEq] at hl
        omega
      simp [fix_modifier_attr, hv, pyLen, hne, hl]

/-- `fix_modifier_attr` never touches a key other than `modifiers`. -/
theorem fix_modifier_frame (d d2 : Dict) (h : fix_modifier_attr d = .ok d2)
    (k : String) (hk : k ≠ "modifiers") : dlookup d2 k = dlookup d k := by
  cases hv : dlookup d "modifiers" with
  | none =>
      rw [fix_modifier_absent d hv] at h
      cases h
      rfl
  | some v =>
      cases v with
      | num q => rw [fix_modifier_num d q hv] at h; cases h
      | str s =>
          by_cases hs : s.length = 0
          · rw [fix_modifier_len0 d (.str s) hv (by simp [pyLen, hs])] at h
            cases h
            rw [dlookup_dinsert]
            simp [hk]
          · rw [fix_modifier_str d s hv hs] at h
            cases h
            rw [dlookup_dinsert]
            simp [hk]
      | list xs =>
          cases xs with
          | nil =>
              rw [fix_modifier_len0 d (.list []) hv (by simp [pyLen])] at h
              cases h
              rw [dlookup_dinsert]
              simp [hk]
          | cons a as =>
              rw [fix_modifier_nonstr d (.list (a :: as)) as.length hv
                (by simp [pyLen]) (by intro s hc; cases hc)] at h
              cases h
              rfl
      | tuple xs =>
          cases xs with
          | nil =>
              rw [fix_modifier_len0 d (.tuple []) hv (by simp [pyLen])] at h
              cases h
              rw [dlookup_dinsert]
              simp [hk]
          | cons a as =>
              rw [fix_modifier_nonstr d (.tuple (a :: as)) as.length hv
                (by simp [pyLen]) (by intro s hc; cases hc)] at h
              cases h
              rfl

/-- The `modifiers` value of a successfully normalized descriptor is never
a raw string and never an empty list. -/
theorem fix_modifier_shape (d d2 : Dict) (h : fix_modifier_attr d = .ok d2)
    (v : AttrValue) (hv2 : dlookup d2 "modifiers" = some v) :
    (∀ s, v ≠ AttrValue.str s) ∧ v ≠ AttrValue.list [] := by
  cases hv : dlookup d "modifiers" with
  | none =>
      rw [fix_modifier_absent d hv] at h
      cases h
      rw [hv] at hv2
      cases hv2
  | some w =>
      cases w with
      | num q => rw [fix_modifier_num d q hv] at h; cases h
      | str s =>
          by_cases hs : s.length = 0
          · rw [fix_modifier_len0 d (.str s) hv (by simp [pyLen, hs])] at h
            cases h
            rw [dlookup_dinsert] at hv2
            simp at hv2
            subst hv2
            exact ⟨(fun s2 hc => by cases hc), (fun hc => by cases hc)⟩
          · rw [fix_modifier_str d s hv hs] at h
            cases h
            rw [dlookup_dinsert] at hv2
            simp at hv2
            subst hv2
            exact ⟨(fun s2 hc => by cases hc), (fun hc => by cases hc)⟩
      | list xs =>
          cases xs with
          | nil =>
              rw [fix_modifier_len0 d (.list []) hv (by simp [pyLen])] at h
              cases h
              rw [dlookup_dinsert] at hv2
              simp at hv2
              subst hv2
              exact ⟨(fun s2 hc => by cases hc), (fun hc => by cases hc)⟩
          | cons a as =>
              rw [fix_modifier_nonstr d (.list (a :: as)) as.length hv
                (by simp [pyLen]) (by intro s hc; cases hc)] at h
              cases h
              rw [hv] at hv2
              cases hv2
              exact ⟨(fun s2 hc => by cases hc), (fun hc => by cases hc)⟩
      | tuple xs =>
          cases xs with
          | nil =>
              rw [fix_modifier_len0 d (.tuple []) hv (by simp [pyLen])] at h
              cases h
              rw [dlookup_dinsert] at hv2
              simp at hv2
              subst hv2
              exact ⟨(fun s2 hc => by cases hc), (fun hc => by cases hc)⟩
          | cons a as =>
              rw [fix_modifier_nonstr d (.tuple (a :: as)) as.length hv
                (by simp [pyLen]) (by intro s hc; cases hc)] at h
              cases h
              rw [hv] at hv2
              cases hv2
              exact ⟨(fun s2 hc => by cases hc), (fun hc => by cases hc)⟩

theorem collectE_length {α β : Type} (f : α → Except PyErr β) (l : List α)
    (bs : List β) (h : collectE f l = .ok bs) : bs.length = l.length := by
  induction l generalizing bs with
  | nil =>
      simp only [collectE, Except.ok.injEq] at h
      subst h
      rfl
  | cons a as ih =>
      simp only [collectE] at h
      cases hfa : f a with
      | error e => rw [hfa] at h; cases h
      | ok b =>
          rw [hfa] at h
          cases hr : collectE f as with
          | error e => rw [hr] at h; cases h
          | ok bs2 =>
              rw [hr] at h
              cases h
              simp [ih bs2 hr]

theorem collectE_mem {α β : Type} (f : α → Except PyErr β) (l : List α)
    (bs : List β) (h : collectE f l = .ok bs) (b : β) (hb : b ∈ bs) :
    ∃ a, a ∈ l ∧ f a = .ok b := by
  induction l generalizing bs with
  | nil =>
      simp only [collectE, Except.ok.injEq] at h
      subst h
      cases hb
  | cons a as ih =>
      simp only [collectE] at h
      cases hfa : f a with
      | error e => rw [hfa] at h; cases h
      | ok b0 =>
          rw [hfa] at h
          cases hr : collectE f as with
          | error e => rw [hr] at h; cases h
          | ok bs2 =>
              rw [hr] at h
              cases h
              rcases List.mem_cons.mp hb with hb0 | hbs
              · subst hb0
                exact ⟨a, List.mem_cons_self a as, hfa⟩
              · rcases ih bs2 hr hbs with ⟨a2, ha2, hfa2⟩
                exact ⟨a2, List.mem_cons_of_mem a ha2, hfa2⟩

theorem processDataVar_flag (ft : String) (nv : String × NcVar)
    (r : Bool × Dict) (h : processDataVar ft nv = .ok r) : r.1 = true := by
  simp only [processDataVar] at h
  split at h
  · cases h
  · split at h
    · cases h
    · cases h
      rfl

theorem processCoordVar_flag (ft : String) (nv : String × NcVar)
    (r : Bool × Dict) (h : processCoordVar ft nv = .ok r) : r.1 = true := by
  simp only [processCoordVar] at h
  split at h
  · cases h
  · cases h
    rfl

/-- The wavelength step leaves a descriptor without the key untouched. -/
theorem coerceWavelength_absent (d : Dict) (h : dlookup d "wavelength" = none) :
    coerceWavelength d = .ok d := by
  simp [coerceWavelength, h]

theorem coerceWavelength_present (d : Dict) (v : AttrValue) (qs : List ℚ)
    (hv : dlookup d "wavelength" = some v) (hs : sliceFloat3 v = .ok qs) :
    coerceWavelength d = .ok (dinsert d "wavelength" (.tuple (qs.map Scalar.num))) := by
  simp [coerceWavelength, hv, hs]

/-- The wavelength step only writes the `wavelength` key. -/
theorem coerceWavelength_frame (d d2 : Dict) (h : coerceWavelength d = .ok d2)
    (k : String) (hk : k ≠ "wavelength") : dlookup d2 k = dlookup d k := by
  cases hv : dlookup d "wavelength" with
  | none =>
      rw [coerceWavelength_absent d hv] at h
      cases h
      rfl
  | some v =>
      simp only [coerceWavelength, hv] at h
      cases hs : sliceFloat3 v with
      | error e => rw [hs] at h; cases h
      | ok qs =>
          rw [hs] at h
          cases h
          rw [dlookup_dinsert]
          simp [hk]

theorem dlookup_dinsert_self (d : Dict) (k : String) (v : AttrValue) :
    dlookup (dinsert d k v) k = some v := by
  rw [dlookup_dinsert]
  simp

theorem dlookup_dinsert_ne (d : Dict) (k : String) (v : AttrValue)
    (k2 : String) (h : k2 ≠ k) : dlookup (dinsert d k v) k2 = dlookup d k2 := by
  rw [dlookup_dinsert]
  simp [h]

/-- A record yielded by the data-variable pass went through wavelength
coercion and then modifier normalization of the descriptor built from the
variable's attributes. -/
theorem processDataVar_spec (ft : String) (nv : String × NcVar)
    (r : Bool × Dict) (h : processDataVar ft nv = .ok r) :
    ∃ d2, coerceWavelength
        (dinsert (dinsert nv.2.attrs "file_type" (.str ft)) "name" (.str nv.1)) = .ok d2
      ∧ fix_modifier_attr d2 = .ok r.2 := by
  simp only [processDataVar] at h
  split at h
  · cases h
  · rename_i d2 hco
    split at h
    · cases h
    · rename_i d3 hfix
      cases h
      exact ⟨d2, hco, hfix⟩

/-- A record yielded by the coordinate-variable pass is the modifier
normalization of the descriptor built from the variable's attributes. -/
theorem processCoordVar_spec (ft : String) (nv : String × NcVar)
    (r : Bool × Dict) (h : processCoordVar ft nv = .ok r) :
    fix_modifier_attr
        (dinsert (dinsert nv.2.attrs "file_type" (.str ft)) "name" (.str nv.1)) = .ok r.2 := by
  simp only [processCoordVar] at h
  split at h
  · cases h
  · rename_i d2 hfix
    cases h
    exact hfix

/-- Claim C2, counterexample to the claim as stated: modifier
normalization does raise on a descriptor whose `modifiers` value is a bare
number — `len()` of an unsized value raises `TypeError` before the
`try/except AttributeError/KeyError` block is entered. -/
theorem C2_counterexample :
    fix_modifier_attr [("modifiers", .num 1)] = .error .typeError := by
  rfl

/-- Claim C2, amended: modifier normalization, applied to any descriptor
whose `modifiers` value (if present) is a string or a sequence, never
raises, and behaves by case on the shape of the value: a value of length
zero is replaced by the empty tuple; a non-empty string is replaced by the
tuple of its space-split tokens; an absent `modifiers` field leaves the
descriptor unchanged (no default injected); a non-empty non-string
sequence is left unchanged. -/
theorem C2_modifier_normalization_cases :
    (∀ d, dlookup d "modifiers" = none → fix_modifier_attr d = .ok d)
    ∧ (∀ d v, dlookup d "modifiers" = some v → pyLen v = some 0 →
        fix_modifier_attr d = .ok (dinsert d "modifiers" (.tuple [])))
    ∧ (∀ d s, dlookup d "modifiers" = some (.str s) → s.length ≠ 0 →
        fix_modifier_attr d
          = .ok (dinsert d "modifiers" (.tuple ((pySplitSpace s).map Scalar.str))))
    ∧ (∀ d v n, dlookup d "modifiers" = some v → pyLen v = some (n + 1) →
        (∀ s, v ≠ AttrValue.str s) → fix_modifier_attr d = .ok d)
    ∧ (∀ d v, dlookup d "modifiers" = some v → (∀ q, v ≠ AttrValue.num q) →
        ∃ d2, fix_modifier_attr d = .ok d2) := by
  refine ⟨fix_modifier_absent, fix_modifier_len0, fix_modifier_str,
    fix_modifier_nonstr, ?_⟩
  intro d v hv hnq
  cases v with
  | num q => exact absurd rfl (hnq q)
  | str s =>
      by_cases hs : s.length = 0
      · exact ⟨_, fix_modifier_len0 d (.str s) hv (by simp [pyLen, hs])⟩
      · exact ⟨_, fix_modifier_str d s hv hs⟩
  | list xs =>
      cases xs with
      | nil => exact ⟨_, fix_modifier_len0 d (.list []) hv (by simp [pyLen])⟩
      | cons a as =>
          exact ⟨d, fix_modifier_nonstr d (.list (a :: as)) as.length hv
            (by simp [pyLen]) (by intro s hc; cases hc)⟩
  | tuple xs =>
      cases xs with
      | nil => exact ⟨_, fix_modifier_len0 d (.tuple []) hv (by simp [pyLen])⟩
      | cons a as =>
          exact ⟨d, fix_modifier_nonstr d (.tuple (a :: as)) as.length hv
            (by simp [pyLen]) (by intro s hc; cases hc)⟩

/-- Witness for C2 at concrete inputs: an empty list normalizes to the
empty tuple, and a non-empty string splits into a tuple of tokens. -/
theorem C2_witness :
    fix_modifier_attr [("modifiers", .list []), ("name", .str "x")]
      = .ok (dinsert [("modifiers", .list []), ("name", .str "x")] "modifiers" (.tuple []))
    ∧ fix_modifier_attr [("modifiers", .str "a b")]
      = .ok (dinsert [("modifiers", .str "a b")] "modifiers"
          (.tuple ((pySplitSpace "a b").map Scalar.str))) :=
  ⟨C2_modifier_normalization_cases.2.1 [("modifiers", .list []), ("name", .str "x")]
      (.list []) (by rfl) (by rfl),
   C2_modifier_normalization_cases.2.2.1 [("modifiers", .str "a b")] "a b"
      (by rfl) (by decide)⟩

/-- Claim C10 (frame property): `fix_modifier_attr` changes at most the
`modifiers` key — every other key of the descriptor has exactly the same
binding after a successful call as before. -/
theorem C10_fix_modifier_frame (d d2 : Dict) (h : fix_modifier_attr d = .ok d2)
    (k : String) (hk : k ≠ "modifiers") : dlookup d2 k = dlookup d k :=
  fix_modifier_frame d d2 h k hk

/-- Witness for C10: normalizing a descriptor with a string `modifiers`
leaves its `name` binding untouched. -/
theorem C10_witness :
    dlookup [("name", .str "M05"), ("modifiers", .tuple [.str "a", .str "b"])] "name"
      = dlookup [("name", .str "M05"), ("modifiers", .str "a b")] "name" :=
  C10_fix_modifier_frame [("name", .str "M05"), ("modifiers", .str "a b")]
    [("name", .str "M05"), ("modifiers", .tuple [.str "a", .str "b"])]
    (by decide) "name" (by decide)

/-- Claim C7: `get_dataset` raises `KeyError` whenever the resolved
variable key — `ds_info['file_key']` if present, else `ds_id['name']` —
names a variable not present in the file. -/
theorem C7_get_dataset_missing_key (f : NcFile) (ds_id ds_info : Dict)
    (nm : AttrValue) (k : String)
    (hnm : dlookup ds_id "name" = some nm)
    (hbranch : dlookup ds_info "file_key" = some (.str k)
      ∨ (dlookup ds_info "file_key" = none ∧ nm = .str k))
    (habs : ncGetVar f k = none) :
    get_dataset f ds_id ds_info = .error .keyError := by
  have hres : resolveFileKey ds_id ds_info = .ok (.str k) := by
    rcases hbranch with hfk | ⟨hfk, hnmk⟩
    · simp [resolveFileKey, hnm, hfk]
    · subst hnmk
      simp [resolveFileKey, hnm, hfk]
  simp [get_dataset, hres, habs]

/-- Witness for C7: requesting `M99`, absent from `exFile`, raises. -/
theorem C7_witness :
    get_dataset exFile [("name", .str "M99")] [("name", .str "M99")]
      = .error .keyError :=
  C7_get_dataset_missing_key exFile [("name", .str "M99")] [("name", .str "M99")]
    (.str "M99") "M99" (by rfl) (.inr ⟨by rfl, rfl⟩) (by rfl)

/-- Claim C8: `end_time` equals the filename metadata's `end_time` value
when that key is present, and equals `start_time` (the required
`start_time` value) when the key is absent. -/
theorem C8_end_time (fi : List (String × Nat)) (st : Nat)
    (hst : alookup fi "start_time" = some st) :
    start_time fi = .ok st
    ∧ (∀ et, alookup fi "end_time" = some et → end_time fi = .ok et)
    ∧ (alookup fi "end_time" = none → end_time fi = .ok st) := by
  have h1 : start_time fi = .ok st := by simp [start_time, hst]
  refine ⟨h1, ?_, ?_⟩
  · intro et het
    simp [end_time, h1, het]
  · intro hnone
    simp [end_time, h1, hnone]

/-- Witness for C8 at concrete filename metadata, with and without an
explicit `end_time`. -/
theorem C8_witness :
    end_time [("start_time", 100), ("end_time", 200)] = .ok 200
    ∧ end_time [("start_time", 100)] = .ok 100 :=
  ⟨(C8_end_time [("start_time", 100), ("end_time", 200)] 100 (by rfl)).2.1 200 (by rfl),
   (C8_end_time [("start_time", 100)] 100 (by rfl)).2.2 (by rfl)⟩

/-- Claim C9: on a file whose global `instrument` attribute is the string
`s`, `sensor` returns `s` with every `/` replaced by `-` and then
lowercased (a single per-character pass), `sensor_names` is the singleton
set containing that value, and `sensor` fails with `KeyError` on a file
with no `instrument` attribute. -/
theorem C9_sensor (f : NcFile) (s : String)
    (hs : dlookup f.attrs "instrument" = some (.str s)) :
    sensor f
      = .ok (String.mk (s.data.map (fun c => Char.toLower (if c = '/' then '-' else c))))
    ∧ sensor_names f
      = .ok {String.mk (s.data.map (fun c => Char.toLower (if c = '/' then '-' else c)))}
    ∧ (∀ f2 : NcFile, dlookup f2.attrs "instrument" = none →
        sensor f2 = .error PyErr.keyError) := by
  have h1 : sensor f
      = .ok (String.mk (s.data.map (fun c => Char.toLower (if c = '/' then '-' else c)))) := by
    simp only [sensor, hs, pyLower, pyReplaceSlashDash, List.map_map]
    rfl
  refine ⟨h1, ?_, ?_⟩
  · simp [sensor_names, h1]
  · intro f2 h2
    simp [sensor, h2]

/-- Witness for C9: `instrument = "VIIRS/Something"` gives sensor
`"viirs-something"`. -/
theorem C9_witness :
    sensor exFile = .ok "viirs-something"
    ∧ sensor_names exFile = .ok {"viirs-something"} := by
  have h := C9_sensor exFile "VIIRS/Something" (by rfl)
  exact ⟨by rw [h.1]; decide, by rw [h.2.1]; decide⟩

/-- Claim C1, counterexample to the claim as stated: a data variable whose
`modifiers` attribute is a non-empty list is emitted with that list
unchanged — the normalized `modifiers` field is not a tuple. -/
theorem C1_counterexample :
    dynamic_datasets "cf" exListModFile
      = .ok [(true, [("modifiers", .list [.str "sunz_corrected"]),
                     ("file_type", .str "cf"), ("name", .str "chan")])]
    ∧ ∀ xs, AttrValue.list [Scalar.str "sunz_corrected"] ≠ AttrValue.tuple xs := by
  constructor
  · rfl
  · intro xs hc
    cases hc

/-- Claim C1, amended: for every descriptor emitted by the dynamic
data-variable pass and the dynamic coordinate-variable pass, the
`modifiers` field, if present, is never a raw string and never an empty
list, and an input `modifiers` value that is an empty sequence is
normalized to the empty tuple. -/
theorem C1_modifiers_invariant :
    (∀ ft f l, dynamic_datasets ft f = .ok l → ∀ p, p ∈ l → ∀ v,
        dlookup p.2 "modifiers" = some v →
        (∀ s, v ≠ AttrValue.str s) ∧ v ≠ AttrValue.list [])
    ∧ (∀ ft f l, coordinate_datasets ft f = .ok l → ∀ p, p ∈ l → ∀ v,
        dlookup p.2 "modifiers" = some v →
        (∀ s, v ≠ AttrValue.str s) ∧ v ≠ AttrValue.list [])
    ∧ (∀ ft nv r v, processDataVar ft nv = .ok r →
        dlookup nv.2.attrs "modifiers" = some v → pyLen v = some 0 →
        dlookup r.2 "modifiers" = some (.tuple []))
    ∧ (∀ ft nv r v, processCoordVar ft nv = .ok r →
        dlookup nv.2.attrs "modifiers" = some v → pyLen v = some 0 →
        dlookup r.2 "modifiers" = some (.tuple [])) := by
  refine ⟨?_, ?_, ?_, ?_⟩
  · intro ft f l hl p hp v hv
    obtain ⟨nv, _, hnv⟩ := collectE_mem _ _ _ hl p hp
    obtain ⟨d2, _, hfix⟩ := processDataVar_spec _ _ _ hnv
    exact fix_modifier_shape d2 p.2 hfix v hv
  · intro ft f l hl p hp v hv
    obtain ⟨nv, _, hnv⟩ := collectE_mem _ _ _ hl p hp
    exact fix_modifier_shape _ p.2 (processCoordVar_spec _ _ _ hnv) v hv
  · intro ft nv r v h hv hlen
    obtain ⟨d2, hco, hfix⟩ := processDataVar_spec ft nv r h
    have hdm : dlookup
        (dinsert (dinsert nv.2.attrs "file_type" (.str ft)) "name" (.str nv.1))
        "modifiers" = some v := by
      rw [dlookup_dinsert_ne _ _ _ _ (by decide), dlookup_dinsert_ne _ _ _ _ (by decide)]
      exact hv
    have hdm2 : dlookup d2 "modifiers" = some v := by
      rw [coerceWavelength_frame _ _ hco "modifiers" (by decide)]
      exact hdm
    have hfix2 := fix_modifier_len0 d2 v hdm2 hlen
    rw [hfix] at hfix2
    rw [Except.ok.inj hfix2, dlookup_dinsert_self]
  · intro ft nv r v h hv hlen
    have hfix := processCoordVar_spec ft nv r h
    have hdm : dlookup
        (dinsert (dinsert nv.2.attrs "file_type" (.str ft)) "name" (.str nv.1))
        "modifiers" = some v := by
      rw [dlookup_dinsert_ne _ _ _ _ (by decide), dlookup_dinsert_ne _ _ _ _ (by decide)]
      exact hv
    have hfix2 := fix_modifier_len0 _ v hdm hlen
    rw [hfix] at hfix2
    rw [Except.ok.inj hfix2, dlookup_dinsert_self]

/-- Witness for C1: the string-modifier variable of `exFile` is emitted
with a tuple, and an empty-list input normalizes to the empty tuple. -/
theorem C1_witness :
    ((∀ s, AttrValue.tuple [.str "sunz_corrected", .str "rayleigh_corrected"]
        ≠ AttrValue.str s)
      ∧ AttrValue.tuple [.str "sunz_corrected", .str "rayleigh_corrected"]
        ≠ AttrValue.list [])
    ∧ dlookup [("modifiers", .tuple []), ("file_type", .str "cf"),
               ("name", .str "M15")] "modifiers" = some (.tuple []) :=
  ⟨C1_modifiers_invariant.1 "cf" exFile exDynOut (by rfl)
      (true, [("wavelength", .tuple [.num 0.6, .num 0.65, .num 0.7]),
              ("modifiers", .tuple [.str "sunz_corrected", .str "rayleigh_corrected"]),
              ("file_type", .str "cf"), ("name", .str "M05")])
      (by unfold exDynOut; exact List.mem_cons_self _ _)
      (.tuple [.str "sunz_corrected", .str "rayleigh_corrected"]) (by rfl),
   C1_modifiers_invariant.2.2.1 "cf" ("M15", { attrs := [("modifiers", .list [])], payload := 1 })
      (true, [("modifiers", .tuple []), ("file_type", .str "cf"), ("name", .str "M15")])
      (.list []) (by rfl) (by rfl) (by rfl)⟩

/-- Claim C3: `available_datasets` yields exactly the configured entries
(nothing when absent), then one record per data variable, then one record
per coordinate variable, in that order. -/
theorem C3_available_datasets_concat (ft : String) (f : NcFile)
    (c dyn cs : List (Bool × Dict))
    (hdyn : dynamic_datasets ft f = .ok dyn)
    (hcs : coordinate_datasets ft f = .ok cs) :
    available_datasets ft f (some c) = .ok (c ++ dyn ++ cs)
    ∧ available_datasets ft f none = .ok (dyn ++ cs)
    ∧ dyn.length = f.data_vars.length
    ∧ cs.length = f.coords.length := by
  refine ⟨?_, ?_, collectE_length _ _ _ hdyn, collectE_length _ _ _ hcs⟩
  · simp [available_datasets, hdyn, hcs, existing_datasets]
  · simp [available_datasets, hdyn, hcs, existing_datasets]

/-- Witness for C3 on a file with 2 data variables and 1 coordinate
variable: 3 records with no configured input, 4 with one configured entry,
the configured one first. -/
theorem C3_witness :
    available_datasets "cf" exFile (some [(true, [("name", .str "foo")])])
      = .ok ([(true, [("name", .str "foo")])] ++ exDynOut ++ exCoordOut)
    ∧ available_datasets "cf" exFile none = .ok (exDynOut ++ exCoordOut)
    ∧ ([(true, [("name", AttrValue.str "foo")])] ++ exDynOut ++ exCoordOut).length = 4
    ∧ (exDynOut ++ exCoordOut).length = 3
    ∧ ([(true, [("name", AttrValue.str "foo")])] ++ exDynOut ++ exCoordOut).head?
      = some (true, [("name", AttrValue.str "foo")]) := by
  have h := C3_available_datasets_concat "cf" exFile [(true, [("name", .str "foo")])]
    exDynOut exCoordOut (by rfl) (by rfl)
  exact ⟨h.1, h.2.1, by rfl, by rfl, by rfl⟩

/-- Claim C4: every record yielded past the configured prefix (that is, by
the two dynamic passes) has availability flag `true`, and the configured
prefix is passed through unchanged, flags and descriptors alike. -/
theorem C4_availability_flags (ft : String) (f : NcFile)
    (conf : Option (List (Bool × Dict))) (l : List (Bool × Dict))
    (h : available_datasets ft f conf = .ok l) :
    l.take (existing_datasets conf).length = existing_datasets conf
    ∧ ∀ p ∈ l.drop (existing_datasets conf).length, p.1 = true := by
  simp only [available_datasets] at h
  cases hdyn : dynamic_datasets ft f with
  | error e => rw [hdyn] at h; cases h
  | ok dyn =>
      rw [hdyn] at h
      cases hcs : coordinate_datasets ft f with
      | error e => rw [hcs] at h; cases h
      | ok cs =>
          rw [hcs] at h
          cases h
          constructor
          · rw [List.append_assoc, List.take_left]
          · rw [List.append_assoc, List.drop_left]
            intro p hp
            rcases List.mem_append.mp hp with hd | hc
            · obtain ⟨a, _, hfa⟩ := collectE_mem _ _ _ hdyn p hd
              exact processDataVar_flag _ _ _ hfa
            · obtain ⟨a, _, hfa⟩ := collectE_mem _ _ _ hcs p hc
              exact processCoordVar_flag _ _ _ hfa

/-- Witness for C4: a configured entry with flag `false` passes through
unchanged in first position, and every dynamically discovered record has
flag `true`. -/
theorem C4_witness :
    ([(false, [("name", AttrValue.str "foo")])] ++ exDynOut ++ exCoordOut).take
        (existing_datasets (some [(false, [("name", AttrValue.str "foo")])])).length
      = existing_datasets (some [(false, [("name", AttrValue.str "foo")])])
    ∧ ∀ p ∈ ([(false, [("name", AttrValue.str "foo")])] ++ exDynOut ++ exCoordOut).drop
        (existing_datasets (some [(false, [("name", AttrValue.str "foo")])])).length,
        p.1 = true :=
  C4_availability_flags "cf" exFile (some [(false, [("name", .str "foo")])])
    ([(false, [("name", .str "foo")])] ++ exDynOut ++ exCoordOut) (by rfl)

/-- Claim C5: a data variable with a `wavelength` attribute is emitted
with `wavelength` equal to the tuple of the first three entries coerced to
floats; a data variable with no `wavelength` attribute is emitted with no
`wavelength` key, and the wavelength step never fails on such a
descriptor; and `[0.6, 0.65, 0.7, "extra"]` coerces to `(0.6, 0.65,
0.7)`. -/
theorem C5_wavelength_coercion :
    (∀ ft nv r (v : AttrValue) (qs : List ℚ),
        processDataVar ft nv = .ok r →
        dlookup nv.2.attrs "wavelength" = some v →
        sliceFloat3 v = .ok qs →
        dlookup r.2 "wavelength" = some (.tuple (qs.map Scalar.num)))
    ∧ (∀ ft nv r, processDataVar ft nv = .ok r →
        dlookup nv.2.attrs "wavelength" = none →
        dlookup r.2 "wavelength" = none)
    ∧ (∀ d, dlookup d "wavelength" = none → coerceWavelength d = .ok d)
    ∧ sliceFloat3 (.list [.num 0.6, .num 0.65, .num 0.7, .str "extra"])
        = .ok [0.6, 0.65, 0.7] := by
  refine ⟨?_, ?_, coerceWavelength_absent, by rfl⟩
  · intro ft nv r v qs h hw hs
    obtain ⟨d2, hco, hfix⟩ := processDataVar_spec ft nv r h
    have hdw : dlookup
        (dinsert (dinsert nv.2.attrs "file_type" (.str ft)) "name" (.str nv.1))
        "wavelength" = some v := by
      rw [dlookup_dinsert_ne _ _ _ _ (by decide), dlookup_dinsert_ne _ _ _ _ (by decide)]
      exact hw
    have hco2 := coerceWavelength_present _ v qs hdw hs
    rw [hco] at hco2
    have hd2 := Except.ok.inj hco2
    subst hd2
    rw [fix_modifier_frame _ _ hfix "wavelength" (by decide), dlookup_dinsert_self]
  · intro ft nv r h hw
    obtain ⟨d2, hco, hfix⟩ := processDataVar_spec ft nv r h
    have hdw : dlookup
        (dinsert (dinsert nv.2.attrs "file_type" (.str ft)) "name" (.str nv.1))
        "wavelength" = none := by
      rw [dlookup_dinsert_ne _ _ _ _ (by decide), dlookup_dinsert_ne _ _ _ _ (by decide)]
      exact hw
    have hco2 := coerceWavelength_absent _ hdw
    rw [hco] at hco2
    have hd2 := Except.ok.inj hco2
    subst hd2
    rw [fix_modifier_frame _ _ hfix "wavelength" (by decide)]
    exact hdw

/-- Witness for C5: the `M05` variable of `exFile`, whose `wavelength`
attribute is `[0.6, 0.65, 0.7, "extra"]`, is emitted with `wavelength`
`(0.6, 0.65, 0.7)`. -/
theorem C5_witness :
    dlookup [("wavelength", .tuple [.num 0.6, .num 0.65, .num 0.7]),
             ("modifiers", .tuple [.str "sunz_corrected", .str "rayleigh_corrected"]),
             ("file_type", .str "cf"), ("name", .str "M05")] "wavelength"
      = some (.tuple (([0.6, 0.65, 0.7] : List ℚ).map Scalar.num)) :=
  C5_wavelength_coercion.1 "cf"
    ("M05",
      { attrs := [("wavelength", .list [.num 0.6, .num 0.65, .num 0.7, .str "extra"]),
                  ("modifiers", .str "sunz_corrected rayleigh_corrected")],
        payload := 0 })
    (true, [("wavelength", .tuple [.num 0.6, .num 0.65, .num 0.7]),
            ("modifiers", .tuple [.str "sunz_corrected", .str "rayleigh_corrected"]),
            ("file_type", .str "cf"), ("name", .str "M05")])
    (.list [.num 0.6, .num 0.65, .num 0.7, .str "extra"]) [0.6, 0.65, 0.7]
    (by rfl) (by rfl) (by rfl)

/-- Claim C6: `get_dataset` fetches the variable named by
`ds_info['file_key']` if present, else `ds_id['name']`; the returned
payload is the variable's, and its attribute mapping contains every global
attribute of the file (on a key collision the global value, written after
the variable's own attributes, wins) while keys not global keep the
variable's binding. -/
theorem C6_get_dataset_merge (f : NcFile) (ds_id ds_info : Dict)
    (nm : AttrValue) (k : String) (v r : NcVar)
    (hnm : dlookup ds_id "name" = some nm)
    (hbranch : dlookup ds_info "file_key" = some (.str k)
      ∨ (dlookup ds_info "file_key" = none ∧ nm = .str k))
    (hvar : ncGetVar f k = some v)
    (hnodup : (f.attrs.map Prod.fst).Nodup)
    (hr : get_dataset f ds_id ds_info = .ok r) :
    r.payload = v.payload
    ∧ (∀ key val, dlookup f.attrs key = some val → dlookup r.attrs key = some val)
    ∧ (∀ key, dlookup f.attrs key = none →
        dlookup r.attrs key = dlookup v.attrs key) := by
  have hres : resolveFileKey ds_id ds_info = .ok (.str k) := by
    rcases hbranch with hfk | ⟨hfk, hnmk⟩
    · simp [resolveFileKey, hnm, hfk]
    · subst hnmk
      simp [resolveFileKey, hnm, hfk]
  have hget : get_dataset f ds_id ds_info
      = .ok { v with attrs := dupdate v.attrs f.attrs } := by
    simp [get_dataset, hres, hvar]
  rw [hget] at hr
  cases hr
  refine ⟨rfl, ?_, ?_⟩
  · intro key val hkey
    show dlookup (dupdate v.attrs f.attrs) key = some val
    rw [dlookup_dupdate f.attrs hnodup v.attrs key, hkey]
  · intro key hkey
    show dlookup (dupdate v.attrs f.attrs) key = dlookup v.attrs key
    rw [dlookup_dupdate f.attrs hnodup v.attrs key, hkey]

/-- Witness for C6: `get_dataset({"name": "M05"}, {"name": "M05"})` on
`exFile` returns the `M05` payload with the file's global `instrument`
attribute present in the merged attribute mapping, and the variable's own
`wavelength` attribute preserved. -/
theorem C6_witness :
    dlookup [("wavelength", .list [.num 0.6, .num 0.65, .num 0.7, .str "extra"]),
             ("modifiers", .str "sunz_corrected rayleigh_corrected"),
             ("instrument", .str "VIIRS/Something"),
             ("platform_name", .str "Suomi-NPP")] "instrument"
      = some (.str "VIIRS/Something") := by
  have h := C6_get_dataset_merge exFile [("name", .str "M05")] [("name", .str "M05")]
    (.str "M05") "M05"
    { attrs := [("wavelength", .list [.num 0.6, .num 0.65, .num 0.7, .str "extra"]),
                ("modifiers", .str "sunz_corrected rayleigh_corrected")],
      payload := 0 }
    { attrs := [("wavelength", .list [.num 0.6, .num 0.65, .num 0.7, .str "extra"]),
                ("modifiers", .str "sunz_corrected rayleigh_corrected"),
                ("instrument", .str "VIIRS/Something"),
                ("platform_name", .str "Suomi-NPP")],
      payload := 0 }
    (by rfl) (.inr ⟨by rfl, rfl⟩) (by rfl) (by decide) (by rfl)
  exact h.2.1 "instrument" (.str "VIIRS/Something") (by rfl)

theorem fix_modifier_example1 :
    fix_modifier_attr [("modifiers", .list [])] = .ok [("modifiers", .tuple [])] := by
  rfl

theorem fix_modifier_example2 :
    fix_modifier_attr [("modifiers", .str "sunz_corrected rayleigh_corrected")]
      = .ok [("modifiers", .tuple [.str "sunz_corrected", .str "rayleigh_corrected"])] := by
  decide
